import Mathlib

/-!
Verification of the yap secret store (david-wiles/yap) against its
natural-language specification.

The development shallowly embeds the relevant Rust sources:

* `src/src/crypto.rs`  — key derivation (`derive_key_from_pass`) and the
  AEAD engine (`Aes256Engine`, methods `encrypt_bytes` / `decrypt_bytes`);
* `src/src/error.rs`   — the crate-wide `Error` enum;
* `src/src/vault.rs`   — `SimpleVault::get_key`;
* `src/src/config.rs`  — `Configuration::{get_key, set_key}`.

Bytes are `List Nat` with values below 256 where it matters.  Rust `Result`
values are embedded as `Ret`, which also has a `panicked` constructor so that
`todo!()` and similar unconditional panics can be represented faithfully.

The PBKDF2/HMAC-SHA-256 derivation that `derive_key_from_pass` delegates to
(ring's `pbkdf2::derive` with `PBKDF2_HMAC_SHA256`) is implemented in full,
byte for byte, following FIPS 180-4 (SHA-256), FIPS 198 (HMAC) and RFC 2898
(PBKDF2), so that statements about the derivation parameters are statements
about the actual algorithm.  The AES-256-GCM primitive used by
`encrypt_bytes` is external library code (ring's `AES_256_GCM`), not part of
this repository; the engine embedding is therefore parameterised by the
sealing primitive, and a concrete executable stand-in satisfying the
primitive's interface contract is supplied for evaluation.
-/

namespace Yap

/-- Byte strings: lists of naturals (each below 256 where relevant). -/
abbrev Bytes := List Nat

/-- Embeds the `Error` enum of `src/src/error.rs` (lines 3-25).  Payloads that
are external library values (`std::io::Error`, `serde_yaml::Error`,
`FromUtf8Error`, `ring::error::Unspecified`) are dropped; the `String`
payloads of `PasswordNotFound` and `BadConfigKey` are kept. -/
inductive Error where
  | PasswordNotFound (name : String)
  | NoHomeDir
  | BadConfigKey (key : String)
  | CryptoError
  | StdIO
  | SerdeYaml
  | UTF8Error
  deriving DecidableEq

/-- Outcome of a Rust computation: `ok`/`err` embed `Result<T, Error>`, and
`panicked` embeds an unconditional panic (`todo!()`, `unwrap` failure), which
is not a `Result` value at all. -/
inductive Ret (α : Type) where
  | ok (val : α)
  | err (e : Error)
  | panicked (msg : String)
  deriving DecidableEq

/-- Reduction of a natural number to a 32-bit word. -/
def m32 (x : Nat) : Nat := x % 4294967296

/-- Right rotation of a 32-bit word by `n` bits (for `w < 2^32`, `n ≤ 32`). -/
def rotr32 (n w : Nat) : Nat := m32 (w / 2 ^ n + w % 2 ^ n * 2 ^ (32 - n))

/-- Logical right shift by `n` bits. -/
def shr (n w : Nat) : Nat := w / 2 ^ n

/-- Three-way bitwise exclusive or. -/
def xor3 (a b c : Nat) : Nat := Nat.xor a (Nat.xor b c)

/-- SHA-256 small sigma 0: ROTR 7 xor ROTR 18 xor SHR 3. -/
def ssig0 (w : Nat) : Nat := xor3 (rotr32 7 w) (rotr32 18 w) (shr 3 w)

/-- SHA-256 small sigma 1: ROTR 17 xor ROTR 19 xor SHR 10. -/
def ssig1 (w : Nat) : Nat := xor3 (rotr32 17 w) (rotr32 19 w) (shr 10 w)

/-- SHA-256 big sigma 0: ROTR 2 xor ROTR 13 xor ROTR 22. -/
def bsig0 (w : Nat) : Nat := xor3 (rotr32 2 w) (rotr32 13 w) (rotr32 22 w)

/-- SHA-256 big sigma 1: ROTR 6 xor ROTR 11 xor ROTR 25. -/
def bsig1 (w : Nat) : Nat := xor3 (rotr32 6 w) (rotr32 11 w) (rotr32 25 w)

/-- SHA-256 choice function: (x and y) xor ((not x) and z), on 32-bit words. -/
def chf (x y z : Nat) : Nat := Nat.xor (Nat.land x y) (Nat.land (4294967295 - m32 x) z)

/-- SHA-256 majority function: (x and y) xor (x and z) xor (y and z). -/
def majf (x y z : Nat) : Nat := xor3 (Nat.land x y) (Nat.land x z) (Nat.land y z)

/-- Big-endian serialisation of a 32-bit word into 4 bytes. -/
def word32ToBytes (w : Nat) : Bytes :=
  [w / 16777216 % 256, w / 65536 % 256, w / 256 % 256, w % 256]

/-- Big-endian serialisation of a 64-bit word into 8 bytes. -/
def word64ToBytes (w : Nat) : Bytes :=
  [w / 2 ^ 56 % 256, w / 2 ^ 48 % 256, w / 2 ^ 40 % 256, w / 2 ^ 32 % 256,
   w / 2 ^ 24 % 256, w / 2 ^ 16 % 256, w / 2 ^ 8 % 256, w % 256]

/-- The 64 SHA-256 round constants of FIPS 180-4, written in decimal
(the first is 0x428a2f98, the last 0xc67178f2). -/
def sha256K : List Nat :=
  [1116352408, 1899447441, 3049323471, 3921009573,
   961987163, 1508970993, 2453635748, 2870763221,
   3624381080, 310598401, 607225278, 1426881987,
   1925078388, 2162078206, 2614888103, 3248222580,
   3835390401, 4022224774, 264347078, 604807628,
   770255983, 1249150122, 1555081692, 1996064986,
   2554220882, 2821834349, 2952996808, 3210313671,
   3336571891, 3584528711, 113926993, 338241895,
   666307205, 773529912, 1294757372, 1396182291,
   1695183700, 1986661051, 2177026350, 2456956037,
   2730485921, 2820302411, 3259730800, 3345764771,
   3516065817, 3600352804, 4094571909, 275423344,
   430227734, 506948616, 659060556, 883997877,
   958139571, 1322822218, 1537002063, 1747873779,
   1955562222, 2024104815, 2227730452, 2361852424,
   2428436474, 2756734187, 3204031479, 3329325298]

/-- The eight 32-bit words of a SHA-256 chaining state. -/
structure Hash8 where
  a : Nat
  b : Nat
  c : Nat
  d : Nat
  e : Nat
  f : Nat
  g : Nat
  h : Nat

/-- The SHA-256 initial hash value of FIPS 180-4, in decimal (the first word
is 0x6a09e667, the last 0x5be0cd19). -/
def sha256Init : Hash8 :=
  ⟨1779033703, 3144134277, 1013904242, 2773480762,
   1359893119, 2600822924, 528734635, 1541459225⟩

/-- Groups bytes into 32-bit big-endian words (trailing incomplete groups are
dropped; blocks are always a multiple of 4 bytes). -/
def bytesToWords : Bytes → List Nat
  | a :: b :: c :: d :: rest => (((a * 256 + b) * 256 + c) * 256 + d) :: bytesToWords rest
  | _ => []

/-- One step of the SHA-256 message-schedule extension: appends
`σ1(w[t-2]) + w[t-7] + σ0(w[t-15]) + w[t-16] mod 2^32` where `t` is the
current length. -/
def scheduleStep (w : List Nat) : List Nat :=
  w ++ [m32 (ssig1 (w.getD (w.length - 2) 0) + w.getD (w.length - 7) 0 +
             ssig0 (w.getD (w.length - 15) 0) + w.getD (w.length - 16) 0)]

/-- Iterates a function `n` times. -/
def iterN {α : Type} (f : α → α) : Nat → α → α
  | 0, x => x
  | n + 1, x => iterN f n (f x)

/-- The 64-entry SHA-256 message schedule of one 64-byte block. -/
def msgSchedule (block : Bytes) : List Nat :=
  iterN scheduleStep 48 (bytesToWords block)

/-- One SHA-256 round, fed one (round constant, schedule word) pair. -/
def sha256Round (st : Hash8) (kw : Nat × Nat) : Hash8 :=
  let t1 := m32 (st.h + bsig1 st.e + chf st.e st.f st.g + kw.1 + kw.2)
  let t2 := m32 (bsig0 st.a + majf st.a st.b st.c)
  ⟨m32 (t1 + t2), st.a, st.b, st.c, m32 (st.d + t1), st.e, st.f, st.g⟩

/-- SHA-256 compression of one 64-byte block into the chaining state. -/
def sha256Compress (st : Hash8) (block : Bytes) : Hash8 :=
  let r := (sha256K.zip (msgSchedule block)).foldl sha256Round st
  ⟨m32 (st.a + r.a), m32 (st.b + r.b), m32 (st.c + r.c), m32 (st.d + r.d),
   m32 (st.e + r.e), m32 (st.f + r.f), m32 (st.g + r.g), m32 (st.h + r.h)⟩

/-- Number of zero bytes of SHA-256 padding after the `0x80` byte for a
message of `l` bytes. -/
def padZeroCount (l : Nat) : Nat := (64 - (l + 9) % 64) % 64

/-- SHA-256 padding: `0x80`, zeros, then the bit length as 8 big-endian
bytes, to a multiple of 64 bytes. -/
def sha256Pad (msg : Bytes) : Bytes :=
  msg ++ 128 :: (List.replicate (padZeroCount msg.length) 0 ++ word64ToBytes (8 * msg.length))

/-- Splits a byte string into 64-byte blocks. -/
def toBlocks (bs : Bytes) : List Bytes :=
  if h : bs = [] then [] else bs.take 64 :: toBlocks (bs.drop 64)
termination_by bs.length
decreasing_by
  simp only [List.length_drop]
  have : 0 < bs.length := List.length_pos.mpr h
  omega

/-- SHA-256 of a byte string, FIPS 180-4. -/
def sha256 (msg : Bytes) : Bytes :=
  let st := (toBlocks (sha256Pad msg)).foldl sha256Compress sha256Init
  word32ToBytes st.a ++ word32ToBytes st.b ++ word32ToBytes st.c ++ word32ToBytes st.d ++
  word32ToBytes st.e ++ word32ToBytes st.f ++ word32ToBytes st.g ++ word32ToBytes st.h

/-- HMAC-SHA-256, FIPS 198: block size 64, long keys hashed first, inner pad
`0x36`, outer pad `0x5c`. -/
def hmacSha256 (key msg : Bytes) : Bytes :=
  let k0 := if 64 < key.length then sha256 key else key
  let kp := k0 ++ List.replicate (64 - k0.length) 0
  sha256 (kp.map (fun b => Nat.xor b 92) ++ sha256 (kp.map (fun b => Nat.xor b 54) ++ msg))

/-- Bytewise exclusive or of two byte strings. -/
def xorBytes (a b : Bytes) : Bytes := List.zipWith Nat.xor a b

/-- Iterated part of PBKDF2's `F`: `n` further PRF applications, folding each
`U_j` into the accumulator by exclusive or (RFC 2898). -/
def pbkdf2Go (prf : Bytes → Bytes → Bytes) (pass : Bytes) : Nat → Bytes → Bytes → Bytes
  | 0, _, acc => acc
  | n + 1, u, acc => pbkdf2Go prf pass n (prf pass u) (xorBytes acc (prf pass u))

/-- PBKDF2's `F(P, S, c, i) = U_1 xor ... xor U_c` with
`U_1 = PRF(P, S || INT(i))` and `U_j = PRF(P, U_(j-1))` (RFC 2898). -/
def pbkdf2F (prf : Bytes → Bytes → Bytes) (pass salt : Bytes) (c i : Nat) : Bytes :=
  pbkdf2Go prf pass (c - 1) (prf pass (salt ++ word32ToBytes i))
    (prf pass (salt ++ word32ToBytes i))

/-- PBKDF2 with HMAC-SHA-256 as the PRF (hash length 32): concatenates the
blocks `F(P, S, c, 1), F(P, S, c, 2), ...` and keeps the first `dkLen`
bytes (RFC 2898).  This is what ring's
`pbkdf2::derive(PBKDF2_HMAC_SHA256, ..)` computes into its output slice. -/
def pbkdf2HmacSha256 (pass salt : Bytes) (c dkLen : Nat) : Bytes :=
  (List.flatten ((List.range ((dkLen + 31) / 32)).map
    (fun j => pbkdf2F hmacSha256 pass salt c (j + 1)))).take dkLen

/-- The hard-coded salt of `derive_key_from_pass` (src/src/crypto.rs line 52):
`let salt = [0, 1, 2, 3, 4, 5, 6, 7, 8, 9];`. -/
def yapSalt : Bytes := [0, 1, 2, 3, 4, 5, 6, 7, 8, 9]

/-- The key bytes computed by `derive_key_from_pass` (src/src/crypto.rs lines
48-58).  The output buffer is `let mut key = [0u8, 32];` — a two-element
array `[0, 32]`, not `[0u8; 32]` — so ring's `derive` fills exactly
`key.len() = 2` bytes, with `PBKDF2_HMAC_SHA256`, iteration count
`NonZeroU32::new(100000u32).unwrap()` and salt `yapSalt`.  The passphrase
is taken as its byte string (`pass.as_bytes()`). -/
def derivedKey (pass : Bytes) : Bytes := pbkdf2HmacSha256 pass yapSalt 100000 2

/-- Embeds `derive_key_from_pass` (src/src/crypto.rs lines 48-58): derives
into the stack buffer and returns it wrapped in `Ok`. -/
def derive_key_from_pass (pass : Bytes) : Ret Bytes := Ret.ok (derivedKey pass)

/-- Embeds the `Aes256Engine` struct (src/src/crypto.rs lines 24-26): it
holds only the borrowed key bytes. -/
structure Aes256Engine where
  key : Bytes
  deriving DecidableEq

/-- Embeds `Aes256Engine::new` (src/src/crypto.rs lines 29-31). -/
def Aes256Engine.new (key : Bytes) : Aes256Engine := ⟨key⟩

/-- Type of the external AEAD sealing primitive: key, nonce and plaintext to
ciphertext-with-appended-tag.  Stands for ring's
`SealingKey::seal_in_place_append_tag` over `AES_256_GCM`, which is library
code outside this repository. -/
abbrev SealFn := Bytes → Bytes → Bytes → Bytes

/-- Embeds `Aes256Engine::encrypt_bytes` (src/src/crypto.rs lines 35-41).

`UnboundKey::new(&AES_256_GCM, self.key)` fails with
`ring::error::Unspecified` (converted by `?` into `Error::CryptoError`)
unless the key is exactly 32 bytes.  `RandomNonceSequence::advance` draws a
fresh random 12-byte nonce; that draw is passed in as `nonce`.
`seal_in_place_append_tag(Aad::empty(), payload)` encrypts the payload
buffer in place and appends the 16-byte tag, and the method returns
`Ok(payload)` — the mutated buffer itself.  The nonce is not written
anywhere.

The result triple is (returned value, payload buffer after the call, engine
after the call). -/
def Aes256Engine.encrypt_bytes (sealOp : SealFn) (e : Aes256Engine) (nonce payload : Bytes) :
    Ret Bytes × Bytes × Aes256Engine :=
  if e.key.length = 32 then
    (Ret.ok (sealOp e.key nonce payload), sealOp e.key nonce payload, e)
  else
    (Ret.err Error.CryptoError, payload, e)

/-- Embeds `Aes256Engine::decrypt_bytes` (src/src/crypto.rs lines 43-45):
the body is `todo!()`, which unconditionally panics with
"not yet implemented" on every input. -/
def Aes256Engine.decrypt_bytes (e : Aes256Engine) (bytes : Bytes) : Ret Bytes :=
  Ret.panicked "not yet implemented"

/-- Sequencing of Rust's `?` on an embedded outcome: `ok` feeds the
continuation, `err` and a panic propagate. -/
def Ret.andThen {α β : Type} (r : Ret α) (f : α → Ret β) : Ret β :=
  match r with
  | Ret.ok a => f a
  | Ret.err e => Ret.err e
  | Ret.panicked m => Ret.panicked m

/-- The round trip the spec states: derive a key from the passphrase, build
an engine from it, Seal the plaintext, then Open the sealed bytes with the
same engine.  `nonce` is the random draw consumed by the seal call. -/
def roundTrip (sealOp : SealFn) (pass nonce p : Bytes) : Ret Bytes :=
  Ret.andThen (derive_key_from_pass pass) (fun key =>
    Ret.andThen ((Aes256Engine.new key).encrypt_bytes sealOp nonce p).1 (fun sealed =>
      (Aes256Engine.new key).decrypt_bytes sealed))

/-- Keystream of the executable AEAD stand-in: one byte per position from
key, nonce and position. -/
def ksFn (key nonce : Bytes) (i : Nat) : Nat :=
  (key.sum * 31 + nonce.sum * 17 + i * 7 + 11) % 256

/-- Exclusive-or of a byte string against a keystream starting at position
`i`. -/
def xorKS (ks : Nat → Nat) : Nat → Bytes → Bytes
  | _, [] => []
  | i, b :: rest => Nat.xor b (ks i) :: xorKS ks (i + 1) rest

/-- Fold of the ciphertext bytes entering the stand-in's tag. -/
def ctWeight (ct : Bytes) : Nat :=
  ct.foldl (fun acc b => (acc * 257 + b + 1) % 65521) 7

/-- The 16-byte tag of the executable AEAD stand-in, a function of key,
nonce and ciphertext. -/
def tagOf (key nonce ct : Bytes) : Bytes :=
  (List.range 16).map (fun j => (key.sum * 3 + nonce.sum * 5 + ctWeight ct + j) % 256)

/-- Executable stand-in for ring's `AES_256_GCM` sealing primitive (external
library code, not part of this repository).  It keeps the interface contract
the spec relies on — the ciphertext has the plaintext's length and is
followed by a 16-byte tag computed over key, nonce and ciphertext — while a
toy keystream stands in for the AES-256-GCM cipher itself. -/
def gcmSeal : SealFn := fun key nonce pt =>
  let ct := xorKS (ksFn key nonce) 0 pt
  ct ++ tagOf key nonce ct

/-- A 32-byte-key engine used to evaluate the sealing path concretely. -/
def engA : Aes256Engine := Aes256Engine.new (List.replicate 32 7)

/-- A second 32-byte-key engine, with a different key. -/
def engB : Aes256Engine := Aes256Engine.new (List.replicate 32 9)

/-- The 12-byte nonce used in concrete evaluations. -/
def nonce0 : Bytes := List.replicate 12 0

/-- The spec's concrete 15-byte plaintext "db-password-123". -/
def pt15 : Bytes := [100, 98, 45, 112, 97, 115, 115, 119, 111, 114, 100, 45, 49, 50, 51]

/-- Filesystem events observed by vault operations. -/
inductive VEvent where
  | readFile (path : String)
  | decryptCall
  deriving DecidableEq

/-- The filesystem, as a finite map from paths to file contents. -/
abbrev FS := List (String × Bytes)

/-- Looks a path up in the filesystem; `none` means the path does not
exist. -/
def lookupFS : FS → String → Option Bytes
  | [], _ => none
  | (q, d) :: rest, p => if q = p then some d else lookupFS rest p

/-- Embeds the `SimpleVault` struct (src/src/vault.rs lines 7-10).  The
`engine` field has type `Aes256GcmEngine`, a type no file under `src/`
defines (`lib.rs` comments `mod crypto` out); its `decrypt_bytes` method is
therefore passed to `get_key` as the parameter `dec` below. -/
structure SimpleVault where
  vault_dir : String

/-- Embeds `SimpleVault::get_key` (src/src/vault.rs lines 35-45):
join the vault directory with the key name; if the file does not exist,
return `Err(Error::PasswordNotFound { name: key })`; otherwise read the
file, decrypt it with the engine, and decode the plaintext as UTF-8.

`dec` stands for `self.engine.decrypt_bytes`, `fromUtf8` for
`String::from_utf8` (`none` embeds the `FromUtf8Error` case), and `fs` for
the filesystem.  The returned event list records which files were read and
whether decryption was attempted. -/
def SimpleVault.get_key (dec : Bytes → Ret Bytes) (fromUtf8 : Bytes → Option String)
    (fs : FS) (v : SimpleVault) (key : String) : Ret String × List VEvent :=
  let p := v.vault_dir ++ "/" ++ key
  match lookupFS fs p with
  | none => (Ret.err (Error.PasswordNotFound key), [])
  | some data =>
    match dec data with
    | Ret.ok pt =>
      match fromUtf8 pt with
      | some s => (Ret.ok s, [VEvent.readFile p, VEvent.decryptCall])
      | none => (Ret.err Error.UTF8Error, [VEvent.readFile p, VEvent.decryptCall])
    | Ret.err er => (Ret.err er, [VEvent.readFile p, VEvent.decryptCall])
    | Ret.panicked m => (Ret.panicked m, [VEvent.readFile p, VEvent.decryptCall])

/-- Embeds the `ConfigSettings` struct (src/src/config.rs lines 15-19). -/
structure ConfigSettings where
  remote_url : String
  session : String
  deriving DecidableEq

/-- Embeds the `SettingKey` enum (src/src/config.rs lines 23-26). -/
inductive SettingKey where
  | RemoteURL
  | Session
  deriving DecidableEq

/-- Embeds the `Configuration` struct (src/src/config.rs lines 43-46); the
`store` path is kept as a string. -/
structure Configuration where
  settings : ConfigSettings
  store : String
  deriving DecidableEq

/-- Embeds `Configuration::get_key` (src/src/config.rs lines 71-76). -/
def Configuration.get_key (c : Configuration) (key : SettingKey) : String :=
  match key with
  | SettingKey.RemoteURL => c.settings.remote_url
  | SettingKey.Session => c.settings.session

/-- Embeds `Configuration::set_key` (src/src/config.rs lines 79-84); the
`&mut self` update is embedded as returning the updated struct. -/
def Configuration.set_key (c : Configuration) (key : SettingKey) (value : String) : Configuration :=
  match key with
  | SettingKey.RemoteURL => { c with settings := { c.settings with remote_url := value } }
  | SettingKey.Session => { c with settings := { c.settings with session := value } }

/-- Sequencing after a successful outcome runs the continuation. -/
theorem Ret.andThen_ok {α β : Type} (a : α) (f : α → Ret β) :
    Ret.andThen (Ret.ok a) f = f a := rfl

/-- Sequencing after a failed outcome propagates the error. -/
theorem Ret.andThen_err {α β : Type} (e : Error) (f : α → Ret β) :
    Ret.andThen (Ret.err e) f = Ret.err e := rfl

/-- SHA-256 digests are always 32 bytes. -/
theorem sha256_length (msg : Bytes) : (sha256 msg).length = 32 := by
  simp [sha256, word32ToBytes]

/-- HMAC-SHA-256 outputs are always 32 bytes. -/
theorem hmacSha256_length (key msg : Bytes) : (hmacSha256 key msg).length = 32 := by
  simp [hmacSha256, sha256_length]

/-- The PBKDF2 accumulator keeps its 32-byte length through the iteration. -/
theorem pbkdf2Go_length (pass : Bytes) (n : Nat) (u acc : Bytes) (h : acc.length = 32) :
    (pbkdf2Go hmacSha256 pass n u acc).length = 32 := by
  induction n generalizing u acc with
  | zero => simpa [pbkdf2Go] using h
  | succ k ih =>
    simp only [pbkdf2Go]
    exact ih _ _ (by simp [xorBytes, h, hmacSha256_length])

/-- Each PBKDF2 block `F(P, S, c, i)` is 32 bytes. -/
theorem pbkdf2F_length (pass salt : Bytes) (c i : Nat) :
    (pbkdf2F hmacSha256 pass salt c i).length = 32 :=
  pbkdf2Go_length pass (c - 1) _ _ (hmacSha256_length _ _)

/-- The key `derive_key_from_pass` computes has exactly 2 bytes: the length
of the `[0u8, 32]` buffer. -/
theorem derivedKey_length (pass : Bytes) : (derivedKey pass).length = 2 := by
  have h := pbkdf2F_length pass yapSalt 100000 1
  simp [derivedKey, pbkdf2HmacSha256, List.range_succ, h]

/-- Keystream masking preserves length. -/
theorem xorKS_length (ks : Nat → Nat) (i : Nat) (p : Bytes) :
    (xorKS ks i p).length = p.length := by
  induction p generalizing i with
  | nil => simp [xorKS]
  | cons b rest ih => simp [xorKS, ih]

/-- The AEAD stand-in appends exactly 16 tag bytes to a plaintext-length
ciphertext. -/
theorem gcmSeal_length (key nonce p : Bytes) :
    (gcmSeal key nonce p).length = p.length + 16 := by
  simp [gcmSeal, tagOf, xorKS_length]

/-- C1: the claim says that for every byte sequence `p` and passphrase `k`,
Open on the result of Seal(p), with an engine built from `k`, returns `p`.
On the code this fails already at the empty passphrase and empty plaintext:
`derive_key_from_pass` fills a 2-byte buffer (the `[0u8, 32]` slip), so the
AES-256 key setup inside `encrypt_bytes` rejects the key and Seal fails with
`CryptoError` — the round trip never returns `p` (and `decrypt_bytes` is
`todo!()`, so Open panics on any input it is given). -/
theorem c1_roundtrip_fails_on_code :
    roundTrip gcmSeal [] nonce0 [] = Ret.err Error.CryptoError ∧
    Ret.err Error.CryptoError ≠ Ret.ok ([] : Bytes) := by
  constructor
  · have he : ((Aes256Engine.new (derivedKey [])).encrypt_bytes gcmSeal nonce0 []).1 =
        Ret.err Error.CryptoError := by
      simp [Aes256Engine.encrypt_bytes, Aes256Engine.new, derivedKey_length]
    have h0 : roundTrip gcmSeal [] nonce0 [] =
        Ret.andThen (Ret.ok (derivedKey [])) (fun key =>
          Ret.andThen ((Aes256Engine.new key).encrypt_bytes gcmSeal nonce0 []).1 (fun sealed =>
            (Aes256Engine.new key).decrypt_bytes sealed)) := rfl
    rw [h0, Ret.andThen_ok, he, Ret.andThen_err]
  · decide

/-- C2: the claim says key derivation returns a 32-byte key for every
passphrase.  On the code the output buffer is `[0u8, 32]` — the two-element
array `[0, 32]`, not `[0u8; 32]` — so the derived key for the passphrase
"hunter2" (bytes below) has length 2, not 32. -/
theorem c2_derived_key_is_two_bytes :
    derive_key_from_pass [104, 117, 110, 116, 101, 114, 50] =
      Ret.ok (derivedKey [104, 117, 110, 116, 101, 114, 50]) ∧
    (derivedKey [104, 117, 110, 116, 101, 114, 50]).length = 2 ∧ (2 : Nat) ≠ 32 :=
  ⟨rfl, derivedKey_length _, by decide⟩

/-- C3: the claim says Seal outputs nonce(12) ‖ ciphertext ‖ tag(16), input
length + 28 — 43 bytes for the spec's 15-byte plaintext.  On the code,
`encrypt_bytes` returns the sealed payload buffer — ciphertext ‖ tag only,
31 bytes for a 15-byte input — and never writes the nonce anywhere. -/
theorem c3_seal_output_31_bytes_no_nonce :
    (Aes256Engine.encrypt_bytes gcmSeal engA nonce0 pt15).1 =
      Ret.ok (gcmSeal engA.key nonce0 pt15) ∧
    (gcmSeal engA.key nonce0 pt15).length = 31 ∧ (31 : Nat) ≠ 43 := by
  refine ⟨?_, ?_, by decide⟩
  · simp [Aes256Engine.encrypt_bytes, engA, Aes256Engine.new]
  · simp [gcmSeal_length, pt15]

/-- C4: the claim says Open on a buffer shorter than 28 bytes fails with a
`MalformedInput` error and never panics.  On the code, `decrypt_bytes` is
`todo!()`: on the empty buffer (0 bytes, below the 28-byte minimum) it
unconditionally panics instead of returning an error — and the crate's
`Error` enum has no malformed-input variant at all. -/
theorem c4_decrypt_short_input_panics :
    ([] : Bytes).length < 28 ∧
    Aes256Engine.decrypt_bytes engA [] = Ret.panicked "not yet implemented" :=
  ⟨by decide, rfl⟩

/-- C5: key derivation is deterministic — it consumes nothing besides the
passphrase bytes, so equal passphrases yield bit-identical keys. -/
theorem c5_derivation_deterministic (p q : Bytes) (h : p = q) :
    derive_key_from_pass p = derive_key_from_pass q := by rw [h]

/-- Witness for C5 at the passphrase "hunter2". -/
theorem c5_derivation_deterministic_witness :
    ([104, 117, 110, 116, 101, 114, 50] : Bytes) = [104, 117, 110, 116, 101, 114, 50] ∧
    derive_key_from_pass [104, 117, 110, 116, 101, 114, 50] =
      derive_key_from_pass [104, 117, 110, 116, 101, 114, 50] :=
  ⟨rfl, c5_derivation_deterministic _ _ rfl⟩

/-- C6: for every passphrase, `derive_key_from_pass` computes
PBKDF2-HMAC-SHA-256 with exactly 100000 iterations and the fixed hard-coded
salt `[0, 1, 2, 3, 4, 5, 6, 7, 8, 9]` — the same salt on every
invocation. -/
theorem c6_derivation_parameters (p : Bytes) :
    derive_key_from_pass p = Ret.ok (pbkdf2HmacSha256 p yapSalt 100000 2) ∧
    yapSalt = [0, 1, 2, 3, 4, 5, 6, 7, 8, 9] :=
  ⟨rfl, rfl⟩

/-- C7: the claim says a failed tag verification in Open yields the single
error kind `CryptoError` and no plaintext.  On the code, `decrypt_bytes` is
`todo!()`: opening a 43-byte buffer with a wrong-key engine panics — no tag
verification runs and `CryptoError` is never produced. -/
theorem c7_decrypt_panics_never_crypto_error :
    Aes256Engine.decrypt_bytes engB (List.replicate 43 0) = Ret.panicked "not yet implemented" ∧
    (Ret.panicked "not yet implemented" : Ret Bytes) ≠ Ret.err Error.CryptoError :=
  ⟨rfl, by decide⟩

/-- C8 counterexample: the claim says the caller-supplied plaintext buffer is
unchanged by Seal.  On the code, `seal_in_place_append_tag` encrypts the
payload buffer in place: after sealing the one-byte payload `[0]` the buffer
no longer holds `[0]`. -/
theorem c8_seal_mutates_payload_buffer :
    (Aes256Engine.encrypt_bytes gcmSeal engA nonce0 [0]).2.1 ≠ [0] := by
  intro h
  have h2 := congrArg List.length h
  simp [Aes256Engine.encrypt_bytes, engA, Aes256Engine.new, gcmSeal_length] at h2

/-- C8 as amended: with a valid 32-byte key, Seal leaves the engine
unchanged and its entire outcome is a pure function of the key, the fresh
nonce draw and the payload (no per-call mutable state, each seal independent
of previous ones) — but the payload buffer is mutated in place: after the
call it holds the returned ciphertext ‖ tag bytes. -/
theorem c8_seal_frame (sealOp : SealFn) (e : Aes256Engine) (nonce p : Bytes)
    (h : e.key.length = 32) :
    Aes256Engine.encrypt_bytes sealOp e nonce p =
      (Ret.ok (sealOp e.key nonce p), sealOp e.key nonce p, e) := by
  simp [Aes256Engine.encrypt_bytes, h]

/-- Witness for the amended C8 at a concrete engine, nonce and payload. -/
theorem c8_seal_frame_witness :
    engA.key.length = 32 ∧
    Aes256Engine.encrypt_bytes gcmSeal engA nonce0 [0] =
      (Ret.ok (gcmSeal engA.key nonce0 [0]), gcmSeal engA.key nonce0 [0], engA) :=
  ⟨by decide, c8_seal_frame gcmSeal engA nonce0 [0] (by decide)⟩

/-- C9: when the file for a secret name does not exist in the vault
directory, `SimpleVault::get_key` returns `PasswordNotFound` carrying that
name, reads no file and attempts no decryption (the event list is empty). -/
theorem c9_get_key_missing_file (dec : Bytes → Ret Bytes) (fromUtf8 : Bytes → Option String)
    (fs : FS) (v : SimpleVault) (key : String)
    (h : lookupFS fs (v.vault_dir ++ "/" ++ key) = none) :
    SimpleVault.get_key dec fromUtf8 fs v key = (Ret.err (Error.PasswordNotFound key), []) := by
  simp [SimpleVault.get_key, h]

/-- Witness for C9: an empty filesystem, a concrete vault and name. -/
theorem c9_get_key_missing_file_witness :
    lookupFS [] ((SimpleVault.mk ".yap").vault_dir ++ "/" ++ "token") = none ∧
    SimpleVault.get_key (Aes256Engine.decrypt_bytes engA) (fun _ => none) []
      (SimpleVault.mk ".yap") "token" = (Ret.err (Error.PasswordNotFound "token"), []) :=
  ⟨rfl, c9_get_key_missing_file _ _ _ _ _ rfl⟩

/-- C10: setting one configuration key stores exactly the given value under
that key and leaves the other setting untouched, in both directions. -/
theorem c10_config_set_get_frame (c : Configuration) (v : String) :
    (c.set_key SettingKey.RemoteURL v).get_key SettingKey.RemoteURL = v ∧
    (c.set_key SettingKey.RemoteURL v).get_key SettingKey.Session = c.get_key SettingKey.Session ∧
    (c.set_key SettingKey.Session v).get_key SettingKey.Session = v ∧
    (c.set_key SettingKey.Session v).get_key SettingKey.RemoteURL = c.get_key SettingKey.RemoteURL :=
  ⟨rfl, rfl, rfl, rfl⟩

end Yap
